import Mathlib

/-!
Shallow embedding of `src/registration_refactor.py` (the refactored part B:
`StudentRegistration`, `IValidationRule` and its three concrete rules, and the
`RegistrationService` coordinator), together with theorems settling the
specification claims about that code.

Python `int` is modelled as `Int`, Python `str` as `String`, Python lists as
`List`, and Python dicts as association lists whose `get` method is `pyGet`
(first matching key wins; dict keys are unique in Python, so this agrees with
dict semantics). The `occupied` Python `set` is modelled as a `List` used only
through membership, which is all the source uses it for.
-/

/-- Python `dict.get(k)`: `None` when the key is absent. -/
def pyGet {β : Type} (m : List (String × β)) (k : String) : Option β :=
  match m with
  | [] => none
  | (k', v) :: rest => if k' = k then some v else pyGet rest k

/-- Python `dict.get(k, d)`: default `d` when the key is absent. -/
def pyGetD {β : Type} (m : List (String × β)) (k : String) (d : β) : β :=
  (pyGet m k).getD d

/-- `@dataclass StudentRegistration` from the source. -/
structure StudentRegistration where
  student_id : String
  name : String
  current_sks : Int
  requested_sks : Int
  completed_courses : List String
  requested_courses : List String
  schedule : List String
deriving DecidableEq, Repr

/-- `class SksLimitRule` configuration: `self.max_sks`. -/
structure SksLimitRule where
  max_sks : Int
deriving DecidableEq, Repr

/-- `SksLimitRule.__init__(self, max_sks=24)`: stores the cap unconditionally,
with no validation of any kind. -/
def SksLimitRule.init (max_sks : Int) : SksLimitRule :=
  { max_sks := max_sks }

/-- `SksLimitRule.validate`. -/
def SksLimitRule.validate (self : SksLimitRule) (reg : StudentRegistration) :
    Bool × String :=
  if reg.current_sks + reg.requested_sks > self.max_sks then
    (false, "Gagal: Melebihi batas SKS (max " ++ toString self.max_sks ++ ").")
  else
    (true, "")

/-- `class PrerequisiteRule` configuration: `self.prereq_map`. -/
structure PrerequisiteRule where
  prereq_map : List (String × List String)
deriving DecidableEq, Repr

/-- Inner loop of `PrerequisiteRule.validate`: the first element of `required`
that is not in `completed`, in list order (`for req in required: if req not in
reg.completed_courses: ...`). -/
def firstAbsent (completed : List String) : List String → Option String
  | [] => none
  | req :: rest =>
      if req ∈ completed then firstAbsent completed rest else some req

/-- Outer loop of `PrerequisiteRule.validate`: for each course in order, look
up its prerequisites with `self.prereq_map.get(course, [])` and return the
first (course, missing prerequisite) pair found. -/
def findMissing (m : List (String × List String)) (completed : List String) :
    List String → Option (String × String)
  | [] => none
  | course :: rest =>
      match firstAbsent completed (pyGetD m course []) with
      | some req => some (course, req)
      | none => findMissing m completed rest

/-- `PrerequisiteRule.validate`. -/
def PrerequisiteRule.validate (self : PrerequisiteRule)
    (reg : StudentRegistration) : Bool × String :=
  match findMissing self.prereq_map reg.completed_courses
      reg.requested_courses with
  | some (course, req) =>
      (false, "Gagal: Prasyarat " ++ req ++ " belum terpenuhi untuk "
        ++ course ++ ".")
  | none => (true, "")

/-- `class JadwalBentrokRule` configuration. -/
structure JadwalBentrokRule where
  existing_schedule : List String
  course_slot_map : List (String × String)
deriving DecidableEq, Repr

/-- The built-in default `course_slot_map` from `JadwalBentrokRule.__init__`. -/
def defaultCourseSlotMap : List (String × String) :=
  [("CS101", "Mon-09"), ("CS102", "Tue-11"), ("CS201", "Mon-09"),
   ("MA101", "Wed-10")]

/-- `JadwalBentrokRule.__init__(self, existing_schedule=None,
course_slot_map=None)`: `x or default` replaces a falsy argument (`None` or an
empty collection) by the default. -/
def JadwalBentrokRule.init (existing_schedule : Option (List String))
    (course_slot_map : Option (List (String × String))) : JadwalBentrokRule :=
  { existing_schedule :=
      match existing_schedule with
      | none => []
      | some l => if l = [] then [] else l
    course_slot_map :=
      match course_slot_map with
      | none => defaultCourseSlotMap
      | some m => if m = [] then defaultCourseSlotMap else m }

/-- The `for course in reg.requested_courses` loop of
`JadwalBentrokRule.validate`, with the `occupied` set threaded through
(modelled as a list used only via membership). -/
def jadwalLoop (m : List (String × String)) (occupied : List String) :
    List String → Bool × String
  | [] => (true, "")
  | course :: rest =>
      match pyGet m course with
      | none => jadwalLoop m occupied rest
      | some slot =>
          if slot ∈ occupied then
            (false, "Gagal: Jadwal bentrok untuk " ++ course ++ " pada slot "
              ++ slot ++ ".")
          else
            jadwalLoop m (slot :: occupied) rest

/-- `JadwalBentrokRule.validate`: `occupied = set(self.existing_schedule +
reg.schedule)` then the loop over requested courses. -/
def JadwalBentrokRule.validate (self : JadwalBentrokRule)
    (reg : StudentRegistration) : Bool × String :=
  jadwalLoop self.course_slot_map (self.existing_schedule ++ reg.schedule)
    reg.requested_courses

/-- The closed set of `IValidationRule` implementations present in the
source, as a sum type; `validate` dispatches like Python's dynamic dispatch. -/
inductive IValidationRule where
  | sks : SksLimitRule → IValidationRule
  | prereq : PrerequisiteRule → IValidationRule
  | jadwal : JadwalBentrokRule → IValidationRule
deriving DecidableEq, Repr

/-- Dynamic dispatch of `rule.validate(reg)`. -/
def IValidationRule.validate : IValidationRule → StudentRegistration →
    Bool × String
  | .sks r, reg => r.validate reg
  | .prereq r, reg => r.validate reg
  | .jadwal r, reg => r.validate reg

/-- `class RegistrationService`: holds the injected ordered rule list. -/
structure RegistrationService where
  rules : List IValidationRule
deriving DecidableEq, Repr

/-- The `for rule in self.rules` loop of `RegistrationService.register`: on the
first rule whose `validate` returns `ok = False`, return `(False, msg)`;
otherwise `(True, "Registrasi berhasil.")`. The `print` diagnostic inside the
loop has no effect on the returned value and is omitted. -/
def registerLoop (reg : StudentRegistration) :
    List IValidationRule → Bool × String
  | [] => (true, "Registrasi berhasil.")
  | rule :: rest =>
      let r := rule.validate reg
      if r.1 then registerLoop reg rest else (false, r.2)

/-- `RegistrationService.register`. -/
def RegistrationService.register (self : RegistrationService)
    (reg : StudentRegistration) : Bool × String :=
  registerLoop reg self.rules

/-- The demo request built in `demo_after_refactor`. -/
def demoReg : StudentRegistration :=
  { student_id := "S002"
    name := "Budi"
    current_sks := 18
    requested_sks := 6
    completed_courses := ["CS101"]
    requested_courses := ["CS201", "MA101"]
    schedule := ["Wed-10"] }

/-- The base rule list of `demo_after_refactor`: SKS limit (cap 24) and the
prerequisite rule with map `{"CS201": ["CS101"]}`. -/
def demoRules : List IValidationRule :=
  [.sks (SksLimitRule.init 24),
   .prereq { prereq_map := [("CS201", ["CS101"])] }]

/-- The rule list of `demo_after_refactor(include_jadwal_rule=True)`: the base
list plus `JadwalBentrokRule(existing_schedule=["Mon-09"])`. -/
def demoRulesWithJadwal : List IValidationRule :=
  demoRules ++ [.jadwal (JadwalBentrokRule.init (some ["Mon-09"]) none)]

/-- Statement-by-statement state-threading translation of each `validate`
method: the returned `StudentRegistration` is the request object as the method
body leaves it. No statement in any of the three method bodies assigns to a
field of `reg` (they only read its fields and build local values: messages,
the local `occupied` set), so the threaded request is returned as received. -/
def IValidationRule.validateFrame (rule : IValidationRule)
    (reg : StudentRegistration) : (Bool × String) × StudentRegistration :=
  match rule with
  | .sks r => (r.validate reg, reg)
  | .prereq r => (r.validate reg, reg)
  | .jadwal r => (r.validate reg, reg)

/-- State-threading translation of `RegistrationService.register`: the body
only reads `self.rules` and calls the rules' `validate` (which mutate nothing,
see `IValidationRule.validateFrame`), so the service is returned as received. -/
def RegistrationService.registerFrame (self : RegistrationService)
    (reg : StudentRegistration) : (Bool × String) × RegistrationService :=
  (self.register reg, self)

lemma registerLoop_all_pass (reg : StudentRegistration) :
    ∀ l : List IValidationRule,
      (∀ r ∈ l, (IValidationRule.validate r reg).1 = true) →
      registerLoop reg l = (true, "Registrasi berhasil.")
  | [], _ => rfl
  | rule :: rest, h => by
      have h1 : (IValidationRule.validate rule reg).1 = true := h rule (by simp)
      simp only [registerLoop, h1, if_pos]
      exact registerLoop_all_pass reg rest (fun r hr => h r (by simp [hr]))

lemma registerLoop_append_pass (reg : StudentRegistration)
    (rest : List IValidationRule) :
    ∀ pre : List IValidationRule,
      (∀ r ∈ pre, (IValidationRule.validate r reg).1 = true) →
      registerLoop reg (pre ++ rest) = registerLoop reg rest
  | [], _ => rfl
  | rule :: pre, h => by
      have h1 : (IValidationRule.validate rule reg).1 = true := h rule (by simp)
      simp only [List.cons_append, registerLoop, h1, if_pos]
      exact registerLoop_append_pass reg rest pre (fun r hr => h r (by simp [hr]))

lemma registerLoop_fail (reg : StudentRegistration) (rule : IValidationRule)
    (rest : List IValidationRule)
    (h : (IValidationRule.validate rule reg).1 = false) :
    registerLoop reg (rule :: rest) =
      (false, (IValidationRule.validate rule reg).2) := by
  simp [registerLoop, h]

lemma registerLoop_cases (reg : StudentRegistration) :
    ∀ l : List IValidationRule,
      registerLoop reg l = (true, "Registrasi berhasil.") ∨
      ∃ rule, rule ∈ l ∧ (IValidationRule.validate rule reg).1 = false ∧
        registerLoop reg l = (false, (IValidationRule.validate rule reg).2)
  | [] => Or.inl rfl
  | rule :: rest => by
      by_cases h : (IValidationRule.validate rule reg).1 = true
      · have hstep : registerLoop reg (rule :: rest) = registerLoop reg rest := by
          simp [registerLoop, h]
        rcases registerLoop_cases reg rest with h2 | ⟨r, hr, hf, he⟩
        · exact Or.inl (hstep.trans h2)
        · exact Or.inr ⟨r, by simp [hr], hf, hstep.trans he⟩
      · have hf : (IValidationRule.validate rule reg).1 = false := by
          simpa using h
        exact Or.inr ⟨rule, by simp, hf, registerLoop_fail reg rule rest hf⟩

/-- Claim C1: `RegistrationService.register` runs the rules in list order and
returns the first failing rule's failure verbatim; the result does not depend
on the rules after the first failure (they are never consulted), and when all
rules pass it returns the generic success outcome. -/
theorem register_fail_fast (svc : RegistrationService)
    (reg : StudentRegistration) :
    ((∀ r ∈ svc.rules, (IValidationRule.validate r reg).1 = true) →
      svc.register reg = (true, "Registrasi berhasil."))
    ∧ (∀ pre rule post, svc.rules = pre ++ rule :: post →
        (∀ r ∈ pre, (IValidationRule.validate r reg).1 = true) →
        (IValidationRule.validate rule reg).1 = false →
        svc.register reg = (false, (IValidationRule.validate rule reg).2)
        ∧ ∀ later, RegistrationService.register ⟨pre ++ rule :: later⟩ reg =
            (false, (IValidationRule.validate rule reg).2)) := by
  constructor
  · intro h
    exact registerLoop_all_pass reg svc.rules h
  · intro pre rule post hsplit hpre hfail
    constructor
    · show registerLoop reg svc.rules = _
      rw [hsplit, registerLoop_append_pass reg _ pre hpre,
        registerLoop_fail reg rule post hfail]
    · intro later
      show registerLoop reg (pre ++ rule :: later) = _
      rw [registerLoop_append_pass reg _ pre hpre,
        registerLoop_fail reg rule later hfail]

/-- Witness for C1 at concrete inputs: with both demo rules passing the demo
request, `register` succeeds; with a failing cap-0 SKS rule in front of another
rule, `register` returns the first rule's failure. -/
theorem register_fail_fast_witness :
    RegistrationService.register ⟨demoRules⟩ demoReg =
      (true, "Registrasi berhasil.")
    ∧ RegistrationService.register
        ⟨[.sks (SksLimitRule.init 0), .sks (SksLimitRule.init 100)]⟩ demoReg =
      (false, (IValidationRule.validate (.sks (SksLimitRule.init 0)) demoReg).2) :=
  ⟨(register_fail_fast ⟨demoRules⟩ demoReg).1 (by decide),
   ((register_fail_fast
      ⟨[.sks (SksLimitRule.init 0), .sks (SksLimitRule.init 100)]⟩ demoReg).2
      [] (.sks (SksLimitRule.init 0)) [.sks (SksLimitRule.init 100)] rfl
      (by simp) (by decide)).1⟩

/-- Claim C2: the SKS-limit rule fails exactly when current plus requested
credit hours strictly exceed the configured cap; the failure message is the
fixed text embedding the configured cap (so it contains the cap), and whenever
the sum is at most the cap (equality included) the rule returns Success. -/
theorem sks_limit_correct (rule : SksLimitRule) (reg : StudentRegistration) :
    ((rule.validate reg).1 = false ↔
      reg.current_sks + reg.requested_sks > rule.max_sks)
    ∧ (reg.current_sks + reg.requested_sks > rule.max_sks →
        rule.validate reg =
          (false, "Gagal: Melebihi batas SKS (max "
            ++ toString rule.max_sks ++ ")."))
    ∧ ((rule.validate reg).1 = false →
        ∃ p q, (rule.validate reg).2 = p ++ toString rule.max_sks ++ q)
    ∧ (reg.current_sks + reg.requested_sks ≤ rule.max_sks →
        rule.validate reg = (true, "")) := by
  by_cases h : reg.current_sks + reg.requested_sks > rule.max_sks
  · refine ⟨by simp [SksLimitRule.validate, h], fun _ => by
      simp [SksLimitRule.validate, h], fun _ => ?_, fun hle => ?_⟩
    · exact ⟨"Gagal: Melebihi batas SKS (max ", ").",
        by simp [SksLimitRule.validate, h]⟩
    · exact absurd h (not_lt.mpr hle)
  · refine ⟨by simp [SksLimitRule.validate, h], fun hc => absurd hc h,
      fun hf => ?_, fun _ => by simp [SksLimitRule.validate, h]⟩
    · rw [show rule.validate reg = (true, "") from by
        simp [SksLimitRule.validate, h]] at hf
      cases hf

/-- Witness for C2 at concrete inputs: with cap 24, a 20+6 request fails with
the message naming the cap, and the 18+6 demo request (sum exactly 24)
passes. -/
theorem sks_limit_correct_witness :
    SksLimitRule.validate (SksLimitRule.init 24)
        { demoReg with current_sks := 20 } =
      (false, "Gagal: Melebihi batas SKS (max " ++ toString (24 : Int) ++ ").")
    ∧ SksLimitRule.validate (SksLimitRule.init 24) demoReg = (true, "") :=
  ⟨(sks_limit_correct (SksLimitRule.init 24)
      { demoReg with current_sks := 20 }).2.1 (by decide),
   (sks_limit_correct (SksLimitRule.init 24) demoReg).2.2.2 (by decide)⟩

/-- Claim C6: `register` and the rules are total functions of their inputs; an
execution either succeeds with the generic message or some rule of the list
fails and the coordinator's result is exactly that rule's failure pair,
message unchanged. Expected failure conditions therefore surface as Failure
outcome values, never as exceptions (the embedding of every method body is a
total function: the bodies only use total operations). -/
theorem rules_total_failure_propagation (svc : RegistrationService)
    (reg : StudentRegistration) :
    svc.register reg = (true, "Registrasi berhasil.") ∨
    ∃ rule, rule ∈ svc.rules ∧ (IValidationRule.validate rule reg).1 = false ∧
      svc.register reg = (false, (IValidationRule.validate rule reg).2) :=
  registerLoop_cases reg svc.rules

/-- Claim C7: every rule's `validate` leaves the request unchanged — the
state-threading translation returns the request as received, every field
identical, and the computed outcome agrees with `validate`. -/
theorem rules_preserve_request (rule : IValidationRule)
    (reg : StudentRegistration) :
    (rule.validateFrame reg).2 = reg
    ∧ (rule.validateFrame reg).2.student_id = reg.student_id
    ∧ (rule.validateFrame reg).2.name = reg.name
    ∧ (rule.validateFrame reg).2.current_sks = reg.current_sks
    ∧ (rule.validateFrame reg).2.requested_sks = reg.requested_sks
    ∧ (rule.validateFrame reg).2.completed_courses = reg.completed_courses
    ∧ (rule.validateFrame reg).2.requested_courses = reg.requested_courses
    ∧ (rule.validateFrame reg).2.schedule = reg.schedule
    ∧ (rule.validateFrame reg).1 = rule.validate reg := by
  cases rule <;> exact ⟨rfl, rfl, rfl, rfl, rfl, rfl, rfl, rfl, rfl⟩

/-- Claim C8: end-to-end demo scenarios. With rules [SKS cap 24, prerequisite
map CS201 -> [CS101]] the demo request (18+6 credit hours, CS101 completed,
requesting [CS201, MA101]) succeeds; appending
`JadwalBentrokRule(existing_schedule=["Mon-09"])` with the default course-slot
map (CS201 -> Mon-09) makes it fail with the CS201/Mon-09 conflict message. -/
theorem demo_end_to_end :
    RegistrationService.register ⟨demoRules⟩ demoReg =
      (true, "Registrasi berhasil.")
    ∧ RegistrationService.register ⟨demoRulesWithJadwal⟩ demoReg =
      (false, "Gagal: Jadwal bentrok untuk CS201 pada slot Mon-09.") :=
  ⟨rfl, rfl⟩

/-- Claim C9: `register` is deterministic and stateless — equal rule lists and
equal requests give equal outcomes; a call returns the service (rule list and
every rule's configuration) unchanged, so a later call on the returned service
computes exactly what it would have computed on the original. -/
theorem register_deterministic_stateless (s1 s2 : RegistrationService)
    (r1 r2 : StudentRegistration) :
    (s1.rules = s2.rules → r1 = r2 → s1.register r1 = s2.register r2)
    ∧ (s1.registerFrame r1).2 = s1
    ∧ (s1.registerFrame r1).2.rules = s1.rules
    ∧ ((s1.registerFrame r1).2).register r2 = s1.register r2
    ∧ (s1.registerFrame r1).1 = s1.register r1 := by
  refine ⟨fun h1 h2 => ?_, rfl, rfl, rfl, rfl⟩
  cases s1
  cases s2
  cases h1
  cases h2
  rfl

/-- Witness for C9 at concrete inputs: two calls with the demo rule list and
demo request agree, and the service returned by `registerFrame` is the one
passed in. -/
theorem register_deterministic_stateless_witness :
    RegistrationService.register ⟨demoRules⟩ demoReg =
      RegistrationService.register ⟨demoRules⟩ demoReg
    ∧ (RegistrationService.registerFrame ⟨demoRules⟩ demoReg).2 =
      ⟨demoRules⟩ :=
  ⟨(register_deterministic_stateless ⟨demoRules⟩ ⟨demoRules⟩ demoReg
      demoReg).1 rfl rfl,
   (register_deterministic_stateless ⟨demoRules⟩ ⟨demoRules⟩ demoReg
      demoReg).2.1⟩

/-- Claim C10: a service with an empty rule list returns the generic success
outcome for every request whatsoever. -/
theorem empty_rules_success (reg : StudentRegistration) :
    RegistrationService.register ⟨[]⟩ reg = (true, "Registrasi berhasil.") :=
  rfl

/-- Counterexample to claim C5: `SksLimitRule.__init__` performs no validation
at all — constructing the rule with the negative cap -1 succeeds and simply
stores -1 (no exception is possible: the body is a single field assignment),
and the malformed configuration later surfaces as an ordinary validation
Failure (here on a request with 0 current and 0 requested credit hours). -/
theorem negative_cap_accepted_cex :
    SksLimitRule.init (-1) = { max_sks := -1 }
    ∧ SksLimitRule.validate (SksLimitRule.init (-1))
        { student_id := "S001", name := "Ani", current_sks := 0,
          requested_sks := 0, completed_courses := [],
          requested_courses := [], schedule := [] } =
      (false, "Gagal: Melebihi batas SKS (max -1).") :=
  ⟨rfl, rfl⟩

/-- Amended claim C5: the constructor accepts any cap, including a negative
one, storing it unchanged without any construction-time check; with a negative
cap every request whose credit-hour sum is non-negative is later rejected by
`validate` as a validation Failure naming that cap. -/
theorem negative_cap_stored_and_fails_later (cap : Int)
    (reg : StudentRegistration) :
    SksLimitRule.init cap = { max_sks := cap }
    ∧ (cap < 0 → 0 ≤ reg.current_sks + reg.requested_sks →
        SksLimitRule.validate (SksLimitRule.init cap) reg =
          (false, "Gagal: Melebihi batas SKS (max " ++ toString cap ++ ").")) := by
  refine ⟨rfl, fun hneg hsum => ?_⟩
  have h : reg.current_sks + reg.requested_sks > cap := lt_of_lt_of_le hneg hsum
  simp [SksLimitRule.init, SksLimitRule.validate, h]

/-- Witness for amended C5 at cap -1 and an empty request with 0 credit
hours. -/
theorem negative_cap_stored_and_fails_later_witness :
    SksLimitRule.init (-1) = { max_sks := -1 }
    ∧ SksLimitRule.validate (SksLimitRule.init (-1))
        { student_id := "S003", name := "Cici", current_sks := 0,
          requested_sks := 0, completed_courses := [],
          requested_courses := [], schedule := [] } =
      (false, "Gagal: Melebihi batas SKS (max " ++ toString (-1 : Int) ++ ").") :=
  ⟨(negative_cap_stored_and_fails_later (-1)
      { student_id := "S003", name := "Cici", current_sks := 0,
        requested_sks := 0, completed_courses := [],
        requested_courses := [], schedule := [] }).1,
   (negative_cap_stored_and_fails_later (-1)
      { student_id := "S003", name := "Cici", current_sks := 0,
        requested_sks := 0, completed_courses := [],
        requested_courses := [], schedule := [] }).2 (by decide) (by decide)⟩

lemma firstAbsent_eq_none (completed : List String) :
    ∀ l : List String,
      firstAbsent completed l = none ↔ ∀ r ∈ l, r ∈ completed
  | [] => by simp [firstAbsent]
  | req :: rest => by
      by_cases h : req ∈ completed
      · simp [firstAbsent, h, firstAbsent_eq_none completed rest]
      · simp [firstAbsent, h]

lemma firstAbsent_first (completed : List String) (r : String)
    (rs2 : List String) :
    ∀ rs1 : List String, (∀ x ∈ rs1, x ∈ completed) → r ∉ completed →
      firstAbsent completed (rs1 ++ r :: rs2) = some r
  | [], _, hr => by simp [firstAbsent, hr]
  | x :: rs1, h, hr => by
      have hx : x ∈ completed := h x (by simp)
      simp only [List.cons_append, firstAbsent, if_pos hx]
      exact firstAbsent_first completed r rs2 rs1
        (fun y hy => h y (by simp [hy])) hr

lemma findMissing_eq_none (m : List (String × List String))
    (completed : List String) :
    ∀ l : List String,
      findMissing m completed l = none ↔
        ∀ c ∈ l, firstAbsent completed (pyGetD m c []) = none
  | [] => by simp [findMissing]
  | course :: rest => by
      cases h : firstAbsent completed (pyGetD m course []) with
      | some req => simp [findMissing, h]
      | none => simp [findMissing, h, findMissing_eq_none m completed rest]

lemma findMissing_first (m : List (String × List String))
    (completed : List String) (c r : String) (post : List String) :
    ∀ pre : List String,
      (∀ x ∈ pre, firstAbsent completed (pyGetD m x []) = none) →
      firstAbsent completed (pyGetD m c []) = some r →
      findMissing m completed (pre ++ c :: post) = some (c, r)
  | [], _, hc => by simp [findMissing, hc]
  | x :: pre, h, hc => by
      have hx := h x (by simp)
      simp only [List.cons_append, findMissing, hx]
      exact findMissing_first m completed c r post pre
        (fun y hy => h y (by simp [hy])) hc

/-- Claim C3: the prerequisite rule succeeds exactly when every prerequisite
of every requested course (courses without a map entry having none) is among
the completed courses; and for the first requested course with a missing
prerequisite, at the first missing prerequisite in that course's list, it
fails with the message naming exactly that prerequisite and that course. -/
theorem prerequisite_correct (rule : PrerequisiteRule)
    (reg : StudentRegistration) :
    (rule.validate reg = (true, "") ↔
      ∀ c ∈ reg.requested_courses, ∀ r ∈ pyGetD rule.prereq_map c [],
        r ∈ reg.completed_courses)
    ∧ (∀ pre c post, reg.requested_courses = pre ++ c :: post →
        (∀ x ∈ pre, ∀ r ∈ pyGetD rule.prereq_map x [],
          r ∈ reg.completed_courses) →
        ∀ rs1 r rs2, pyGetD rule.prereq_map c [] = rs1 ++ r :: rs2 →
        (∀ y ∈ rs1, y ∈ reg.completed_courses) →
        r ∉ reg.completed_courses →
        rule.validate reg =
          (false, "Gagal: Prasyarat " ++ r ++ " belum terpenuhi untuk "
            ++ c ++ ".")) := by
  constructor
  · cases h : findMissing rule.prereq_map reg.completed_courses
        reg.requested_courses with
    | none =>
        have hv : rule.validate reg = (true, "") := by
          simp [PrerequisiteRule.validate, h]
        rw [hv]
        refine iff_of_true rfl ?_
        intro c hc
        exact (firstAbsent_eq_none _ _).mp
          ((findMissing_eq_none _ _ _).mp h c hc)
    | some p =>
        obtain ⟨c0, r0⟩ := p
        have hv : rule.validate reg =
            (false, "Gagal: Prasyarat " ++ r0 ++ " belum terpenuhi untuk "
              ++ c0 ++ ".") := by
          simp [PrerequisiteRule.validate, h]
        rw [hv]
        refine iff_of_false (by simp) ?_
        intro hall
        have hnone : findMissing rule.prereq_map reg.completed_courses
            reg.requested_courses = none :=
          (findMissing_eq_none _ _ _).mpr
            (fun c hc => (firstAbsent_eq_none _ _).mpr (hall c hc))
        rw [h] at hnone
        cases hnone
  · intro pre c post hsplit hpre rs1 r rs2 hrs hrs1 hr
    have hc : firstAbsent reg.completed_courses (pyGetD rule.prereq_map c [])
        = some r := by
      rw [hrs]
      exact firstAbsent_first reg.completed_courses r rs2 rs1 hrs1 hr
    have hfm : findMissing rule.prereq_map reg.completed_courses
        reg.requested_courses = some (c, r) := by
      rw [hsplit]
      exact findMissing_first rule.prereq_map reg.completed_courses c r post
        pre (fun x hx => (firstAbsent_eq_none _ _).mpr (hpre x hx)) hc
    simp [PrerequisiteRule.validate, hfm]

/-- Witness for C3 at concrete inputs: with map CS201 -> [CS101] and no
completed courses, requesting CS201 fails naming CS101 and CS201; the demo
request (CS101 completed) passes the same rule. -/
theorem prerequisite_correct_witness :
    PrerequisiteRule.validate ⟨[("CS201", ["CS101"])]⟩
        { demoReg with completed_courses := [] } =
      (false, "Gagal: Prasyarat " ++ "CS101" ++ " belum terpenuhi untuk "
        ++ "CS201" ++ ".")
    ∧ PrerequisiteRule.validate ⟨[("CS201", ["CS101"])]⟩ demoReg =
      (true, "") :=
  ⟨(prerequisite_correct ⟨[("CS201", ["CS101"])]⟩
      { demoReg with completed_courses := [] }).2
      [] "CS201" ["MA101"] rfl (by simp) [] "CS101" [] (by decide)
      (by simp) (by decide),
   (prerequisite_correct ⟨[("CS201", ["CS101"])]⟩ demoReg).1.mpr (by decide)⟩

lemma jadwalLoop_true_iff (m : List (String × String)) :
    ∀ (l : List String) (occ : List String),
      jadwalLoop m occ l = (true, "") ↔
        ((l.filterMap (pyGet m)).Nodup ∧
          ∀ s ∈ l.filterMap (pyGet m), s ∉ occ)
  | [], occ => by simp [jadwalLoop]
  | course :: rest, occ => by
      cases h : pyGet m course with
      | none =>
          simp [jadwalLoop, h, jadwalLoop_true_iff m rest occ]
      | some slot =>
          by_cases hs : slot ∈ occ
          · have hv : jadwalLoop m occ (course :: rest) =
                (false, "Gagal: Jadwal bentrok untuk " ++ course
                  ++ " pada slot " ++ slot ++ ".") := by
              simp [jadwalLoop, h, hs]
            rw [hv]
            refine iff_of_false (by simp) ?_
            rintro ⟨-, hall⟩
            exact hall slot (by simp [List.filterMap_cons, h]) hs
          · have hv : jadwalLoop m occ (course :: rest) =
                jadwalLoop m (slot :: occ) rest := by
              simp [jadwalLoop, h, hs]
            rw [hv, jadwalLoop_true_iff m rest (slot :: occ),
              List.filterMap_cons, h]
            constructor
            · rintro ⟨hnd, hall⟩
              refine ⟨List.nodup_cons.mpr ⟨fun hmem => ?_, hnd⟩, ?_⟩
              · exact hall slot hmem (by simp)
              · intro s hs2
                rcases List.mem_cons.mp hs2 with rfl | hs3
                · exact hs
                · intro hocc
                  exact hall s hs3 (by simp [hocc])
            · rintro ⟨hnd, hall⟩
              obtain ⟨hslot, hnd2⟩ := List.nodup_cons.mp hnd
              refine ⟨hnd2, ?_⟩
              intro s hs2 hmem
              rcases List.mem_cons.mp hmem with heq | hocc
              · exact hslot (heq ▸ hs2)
              · exact hall s (by simp [hs2]) hocc

lemma jadwalLoop_fail (m : List (String × String)) (c slot : String)
    (post : List String) (hc : pyGet m c = some slot) :
    ∀ (pre : List String) (occ : List String),
      (pre.filterMap (pyGet m)).Nodup →
      (∀ s ∈ pre.filterMap (pyGet m), s ∉ occ) →
      (slot ∈ occ ∨ slot ∈ pre.filterMap (pyGet m)) →
      jadwalLoop m occ (pre ++ c :: post) =
        (false, "Gagal: Jadwal bentrok untuk " ++ c ++ " pada slot "
          ++ slot ++ ".")
  | [], occ, _, _, hmem => by
      have hocc : slot ∈ occ := by simpa using hmem
      simp [jadwalLoop, hc, hocc]
  | x :: pre, occ, hnd, hall, hmem => by
      cases hx : pyGet m x with
      | none =>
          simp only [List.filterMap_cons, hx] at hnd hall hmem
          simp only [List.cons_append, jadwalLoop, hx]
          exact jadwalLoop_fail m c slot post hc pre occ hnd hall hmem
      | some t =>
          simp only [List.filterMap_cons, hx] at hnd hall hmem
          have ht : t ∉ occ := hall t (by simp)
          simp only [List.cons_append, jadwalLoop, hx, if_neg ht]
          obtain ⟨htp, hnd2⟩ := List.nodup_cons.mp hnd
          refine jadwalLoop_fail m c slot post hc pre (t :: occ) hnd2 ?_ ?_
          · intro s hs2 hmem2
            rcases List.mem_cons.mp hmem2 with heq | hocc
            · exact htp (heq ▸ hs2)
            · exact hall s (by simp [hs2]) hocc
          · rcases hmem with hocc | hmem2
            · exact Or.inl (by simp [hocc])
            · rcases List.mem_cons.mp hmem2 with rfl | hp
              · exact Or.inl (by simp)
              · exact Or.inr hp

lemma jadwalLoop_skip (m : List (String × String)) (c : String)
    (hc : pyGet m c = none) :
    ∀ (pre post occ : List String),
      jadwalLoop m occ (pre ++ c :: post) = jadwalLoop m occ (pre ++ post)
  | [], post, occ => by simp [jadwalLoop, hc]
  | x :: pre, post, occ => by
      cases hx : pyGet m x with
      | none =>
          simp only [List.cons_append, jadwalLoop, hx]
          exact jadwalLoop_skip m c hc pre post occ
      | some t =>
          simp only [List.cons_append, jadwalLoop, hx]
          by_cases ht : t ∈ occ
          · simp [ht]
          · simp only [if_neg ht]
            exact jadwalLoop_skip m c hc pre post (t :: occ)

/-- Claim C4: the schedule-conflict rule, seeding its occupied set with the
union of the configured `existing_schedule` and the request's own `schedule`,
succeeds exactly when the slots of the mapped requested courses (in order) are
pairwise distinct and none is already occupied; a requested course whose slot
is already occupied — by the seed or by an earlier requested course mapping to
the same slot — fails with the message naming that course and slot; and a
requested course with no entry in the slot map is skipped entirely: removing
it from the request changes nothing. -/
theorem jadwal_bentrok_correct (rule : JadwalBentrokRule)
    (reg : StudentRegistration) :
    (rule.validate reg = (true, "") ↔
      ((reg.requested_courses.filterMap (pyGet rule.course_slot_map)).Nodup ∧
        ∀ s ∈ reg.requested_courses.filterMap (pyGet rule.course_slot_map),
          s ∉ rule.existing_schedule ++ reg.schedule))
    ∧ (∀ pre c post slot, reg.requested_courses = pre ++ c :: post →
        pyGet rule.course_slot_map c = some slot →
        (pre.filterMap (pyGet rule.course_slot_map)).Nodup →
        (∀ s ∈ pre.filterMap (pyGet rule.course_slot_map),
          s ∉ rule.existing_schedule ++ reg.schedule) →
        (slot ∈ rule.existing_schedule ++ reg.schedule ∨
          slot ∈ pre.filterMap (pyGet rule.course_slot_map)) →
        rule.validate reg =
          (false, "Gagal: Jadwal bentrok untuk " ++ c ++ " pada slot "
            ++ slot ++ "."))
    ∧ (∀ pre c post, reg.requested_courses = pre ++ c :: post →
        pyGet rule.course_slot_map c = none →
        rule.validate reg =
          rule.validate { reg with requested_courses := pre ++ post }) := by
  refine ⟨?_, ?_, ?_⟩
  · exact jadwalLoop_true_iff rule.course_slot_map reg.requested_courses
      (rule.existing_schedule ++ reg.schedule)
  · intro pre c post slot hsplit hc hnd hall hmem
    show jadwalLoop _ _ reg.requested_courses = _
    rw [hsplit]
    exact jadwalLoop_fail rule.course_slot_map c slot post hc pre
      (rule.existing_schedule ++ reg.schedule) hnd hall hmem
  · intro pre c post hsplit hc
    show jadwalLoop _ _ reg.requested_courses =
      jadwalLoop _ _ (pre ++ post)
    rw [hsplit]
    exact jadwalLoop_skip rule.course_slot_map c hc pre post
      (rule.existing_schedule ++ reg.schedule)

/-- Witness for C4 at concrete inputs: with existing schedule [Mon-09] and the
default slot map, the demo request fails on CS201 at slot Mon-09 (the first
requested course, whose slot is in the seed); and a request asking only for an
unmapped course behaves exactly like the empty request, which succeeds. -/
theorem jadwal_bentrok_correct_witness :
    JadwalBentrokRule.validate (JadwalBentrokRule.init (some ["Mon-09"]) none)
        demoReg =
      (false, "Gagal: Jadwal bentrok untuk " ++ "CS201" ++ " pada slot "
        ++ "Mon-09" ++ ".")
    ∧ JadwalBentrokRule.validate
        (JadwalBentrokRule.init (some ["Mon-09"]) none)
        { demoReg with requested_courses := ["XX999"] } =
      JadwalBentrokRule.validate
        (JadwalBentrokRule.init (some ["Mon-09"]) none)
        { demoReg with requested_courses := [] } :=
  ⟨(jadwal_bentrok_correct (JadwalBentrokRule.init (some ["Mon-09"]) none)
      demoReg).2.1 [] "CS201" ["MA101"] "Mon-09" rfl (by decide) (by simp)
      (by simp) (Or.inl (by decide)),
   (jadwal_bentrok_correct (JadwalBentrokRule.init (some ["Mon-09"]) none)
      { demoReg with requested_courses := ["XX999"] }).2.2 [] "XX999" [] rfl
      (by decide)⟩
